import Mathlib

/-!
Verification of the LayerNormalizationGrad backward kernels.

The code under verification consists of two kernel implementations of the
LayerNorm gradient:

* the CPU kernel `onnxruntime::contrib::LayerNormGrad<T>::Compute`
  (orttraining/training_ops/cpu/nn/layer_norm.cc), which reinterprets the flat
  buffers as Eigen column-major M x N arrays (M = feature size, N = outer size)
  and computes all three gradients by whole-array expressions; and
* the CUDA kernel `onnxruntime::cuda::LayerNormGrad<T, U>::ComputeInternal`
  (orttraining/training_ops/cuda/nn/layer_norm.cc), which resolves the axis,
  enforces the same feature-size guard, allocates two partial-sum scratch
  buffers of `part_size * n2` elements each, and launches
  `HostLayerNormGradient` (a two-phase partitioned reduction).

Tensors are embedded as total functions on indices with values in `ℚ`
(exact arithmetic); an Eigen column-major M x N map of a flat buffer is the
2-D view `(outer i, feature j)`, which is how all array expressions in the
source index it.  Fallible computation is an `Except`.
-/

/-- Failure value produced when an `ORT_ENFORCE` guard fires.  The CPU kernel
enforces `M != 1`; the CUDA kernel enforces `n2 != 1` with message
"n2 should not be 1". -/
inductive EnforceError
  | featureSizeIsOne
deriving DecidableEq

/-- Modelled from the spec: `HandleNegativeAxis` (declared in
core/providers/common.h, not part of this excerpt).  Per spec section 6,
"negative values are resolved relative to the input rank before use
(e.g. axis = -1 means the last dimension)". -/
def handleNegativeAxis (axis : ℤ) (rank : ℕ) : ℤ :=
  if axis < 0 then axis + rank else axis

/-- Modelled from the spec: `TensorShape::SizeToDimension` (core framework,
not part of this excerpt).  Per the spec glossary, the outer size is the
"product of tensor dimensions preceding the normalization axis". -/
def sizeToDimension (dims : List ℕ) (k : ℕ) : ℕ :=
  (dims.take k).foldl (· * ·) 1

/-- Modelled from the spec: `TensorShape::SizeFromDimension` (core framework,
not part of this excerpt).  Per the spec glossary, the feature size is the
"product of tensor dimensions from the normalization axis onward". -/
def sizeFromDimension (dims : List ℕ) (k : ℕ) : ℕ :=
  (dims.drop k).foldl (· * ·) 1

/-- The resolved axis `HandleNegativeAxis(axis_, X_shape.NumDimensions())`, as
computed identically by both Compute bodies. -/
def resolvedAxis (axisAttr : ℤ) (dims : List ℕ) : ℕ :=
  (handleNegativeAxis axisAttr dims.length).toNat

/-- `N` in the CPU kernel, `n1` in the CUDA kernel:
`X_shape.SizeToDimension(axis)`. -/
def outerSize (dims : List ℕ) (axisAttr : ℤ) : ℕ :=
  sizeToDimension dims (resolvedAxis axisAttr dims)

/-- `M` in the CPU kernel, `n2` in the CUDA kernel:
`X_shape.SizeFromDimension(axis)`. -/
def featureSize (dims : List ℕ) (axisAttr : ℤ) : ℕ :=
  sizeFromDimension dims (resolvedAxis axisAttr dims)

namespace contrib

/-- `X_mean_difference_over_std_var` of the CPU kernel:
`(X_arr.rowwise() - mean_vec.cast<T>().transpose()).rowwise() * inv_std_var_vec.cast<T>().transpose()`,
i.e. cell `(outer i, feature j)` is `(X i j - mean i) * inv_std_var i`. -/
def X_mean_difference_over_std_var (X : ℕ → ℕ → ℚ) (mean ivs : ℕ → ℚ)
    (i j : ℕ) : ℚ :=
  (X i j - mean i) * ivs i

/-- Array `A = Y_grad_arr * X_mean_difference_over_std_var` of the CPU kernel. -/
def A (Ygrad X : ℕ → ℕ → ℚ) (mean ivs : ℕ → ℚ) (i j : ℕ) : ℚ :=
  Ygrad i j * X_mean_difference_over_std_var X mean ivs i j

/-- Array `B = (Y_grad_arr.colwise() * scale_vec).rowwise() * inv_std_var_vec.cast<T>().transpose()`
of the CPU kernel. -/
def B (Ygrad : ℕ → ℕ → ℚ) (scale ivs : ℕ → ℚ) (i j : ℕ) : ℚ :=
  Ygrad i j * scale j * ivs i

/-- Array `C = B * X_mean_difference_over_std_var` of the CPU kernel. -/
def C (Ygrad X : ℕ → ℕ → ℚ) (scale mean ivs : ℕ → ℚ) (i j : ℕ) : ℚ :=
  B Ygrad scale ivs i j * X_mean_difference_over_std_var X mean ivs i j

/-- `mean_B = B.colwise().mean()` of the CPU kernel: the mean of `B` over the
feature axis (the M rows of one Eigen column), one scalar per outer row. -/
def mean_B (M : ℕ) (Ygrad : ℕ → ℕ → ℚ) (scale ivs : ℕ → ℚ) (i : ℕ) : ℚ :=
  (∑ j in Finset.range M, B Ygrad scale ivs i j) / (M : ℚ)

/-- `mean_C = C.colwise().mean()` of the CPU kernel. -/
def mean_C (M : ℕ) (Ygrad X : ℕ → ℕ → ℚ) (scale mean ivs : ℕ → ℚ) (i : ℕ) : ℚ :=
  (∑ j in Finset.range M, C Ygrad X scale mean ivs i j) / (M : ℚ)

/-- `X_grad_arr = B.rowwise() - mean_B - X_mean_difference_over_std_var.rowwise() * mean_C`
of the CPU kernel, with exactly that subtraction order. -/
def X_grad (M : ℕ) (Ygrad X : ℕ → ℕ → ℚ) (scale mean ivs : ℕ → ℚ)
    (i j : ℕ) : ℚ :=
  B Ygrad scale ivs i j - mean_B M Ygrad scale ivs i -
    X_mean_difference_over_std_var X mean ivs i j *
      mean_C M Ygrad X scale mean ivs i

/-- `bias_grad_vec = Y_grad_arr.rowwise().sum()` of the CPU kernel: the sum of
`Y_grad` over the outer axis (the N Eigen columns), one scalar per feature. -/
def bias_grad (N : ℕ) (Ygrad : ℕ → ℕ → ℚ) (j : ℕ) : ℚ :=
  ∑ i in Finset.range N, Ygrad i j

/-- `scale_grad_vec = A.rowwise().sum()` of the CPU kernel. -/
def scale_grad (N : ℕ) (Ygrad X : ℕ → ℕ → ℚ) (mean ivs : ℕ → ℚ) (j : ℕ) : ℚ :=
  ∑ i in Finset.range N, A Ygrad X mean ivs i j

/-- The three output tensors written by `LayerNormGrad<T>::Compute`. -/
structure Output where
  X_grad : ℕ → ℕ → ℚ
  scale_grad : ℕ → ℚ
  bias_grad : ℕ → ℚ

/-- `LayerNormGrad<T>::Compute` of the CPU kernel: resolve the axis, form
`N = SizeToDimension(axis)` and `M = SizeFromDimension(axis)`, enforce
`M != 1` (before any output tensor is obtained or written), then write the
three gradient arrays. -/
def Compute (dims : List ℕ) (axisAttr : ℤ) (Ygrad X : ℕ → ℕ → ℚ)
    (scale mean ivs : ℕ → ℚ) : Except EnforceError Output :=
  let N := outerSize dims axisAttr
  let M := featureSize dims axisAttr
  if M = 1 then Except.error EnforceError.featureSizeIsOne
  else Except.ok
    { X_grad := X_grad M Ygrad X scale mean ivs
      scale_grad := scale_grad N Ygrad X mean ivs
      bias_grad := bias_grad N Ygrad }

end contrib

/-- Spec section 4.1 step 1, written from the spec text:
`D = (X − μ) · σ⁻¹`, the per-row normalized input. -/
def specD (X : ℕ → ℕ → ℚ) (mean ivs : ℕ → ℚ) (i j : ℕ) : ℚ :=
  (X i j - mean i) * ivs i

/-- Spec section 4.1 step 3, written from the spec text:
`B = (dY ⊙ γ) ⊙ σ⁻¹`. -/
def specB (Ygrad : ℕ → ℕ → ℚ) (scale ivs : ℕ → ℚ) (i j : ℕ) : ℚ :=
  (Ygrad i j * scale j) * ivs i

/-- Spec section 4.1 step 4, written from the spec text: `C = B ⊙ D`. -/
def specC (Ygrad X : ℕ → ℕ → ℚ) (scale mean ivs : ℕ → ℚ) (i j : ℕ) : ℚ :=
  specB Ygrad scale ivs i j * specD X mean ivs i j

/-- Spec section 4.1 step 5, written from the spec text:
`meanB = mean_over_feature(B)`, one scalar per outer row. -/
def specMeanB (M : ℕ) (Ygrad : ℕ → ℕ → ℚ) (scale ivs : ℕ → ℚ) (i : ℕ) : ℚ :=
  (∑ j in Finset.range M, specB Ygrad scale ivs i j) / (M : ℚ)

/-- Spec section 4.1 step 5, written from the spec text:
`meanC = mean_over_feature(C)`. -/
def specMeanC (M : ℕ) (Ygrad X : ℕ → ℕ → ℚ) (scale mean ivs : ℕ → ℚ)
    (i : ℕ) : ℚ :=
  (∑ j in Finset.range M, specC Ygrad X scale mean ivs i j) / (M : ℚ)

/-- Spec section 4.1 step 6, written from the spec text:
`dX = B − meanB − D ⊙ meanC`, with that subtraction order. -/
def specDX (M : ℕ) (Ygrad X : ℕ → ℕ → ℚ) (scale mean ivs : ℕ → ℚ)
    (i j : ℕ) : ℚ :=
  specB Ygrad scale ivs i j - specMeanB M Ygrad scale ivs i -
    specD X mean ivs i j * specMeanC M Ygrad X scale mean ivs i

/-- Helper: for any input passing the `M != 1` guard, `Compute` succeeds and
returns exactly the three gradient arrays. -/
theorem contrib.Compute_ok (dims : List ℕ) (axisAttr : ℤ)
    (Ygrad X : ℕ → ℕ → ℚ) (scale mean ivs : ℕ → ℚ)
    (hM1 : featureSize dims axisAttr ≠ 1) :
    contrib.Compute dims axisAttr Ygrad X scale mean ivs =
      Except.ok
        { X_grad := contrib.X_grad (featureSize dims axisAttr) Ygrad X scale mean ivs
          scale_grad := contrib.scale_grad (outerSize dims axisAttr) Ygrad X mean ivs
          bias_grad := contrib.bias_grad (outerSize dims axisAttr) Ygrad } := by
  simp [contrib.Compute, hM1]

/-- C1: for every valid input (outer size at least 1, feature size more than 1)
the Dense-Array (CPU) engine succeeds, and every output cell of the input
gradient equals the closed form of spec steps 1-6:
`dX = B − meanB − D ⊙ meanC` with that subtraction order. -/
theorem c1_dense_engine_computes_spec_closed_form (dims : List ℕ)
    (axisAttr : ℤ) (Ygrad X : ℕ → ℕ → ℚ) (scale mean ivs : ℕ → ℚ)
    (hN : 1 ≤ outerSize dims axisAttr) (hM : 1 < featureSize dims axisAttr) :
    ∃ out, contrib.Compute dims axisAttr Ygrad X scale mean ivs = Except.ok out ∧
      ∀ i j, i < outerSize dims axisAttr → j < featureSize dims axisAttr →
        out.X_grad i j =
          specDX (featureSize dims axisAttr) Ygrad X scale mean ivs i j := by
  have hM1 : featureSize dims axisAttr ≠ 1 := by omega
  exact ⟨_, contrib.Compute_ok dims axisAttr Ygrad X scale mean ivs hM1,
    fun i j _ _ => rfl⟩

/-- Concrete witness input `dY` used by the claim witnesses. -/
def wY : ℕ → ℕ → ℚ := fun i j => (i : ℚ) + 2 * (j : ℚ) + 1

/-- Concrete witness input `X`. -/
def wX : ℕ → ℕ → ℚ := fun i j => (i : ℚ) * (j : ℚ) + 3

/-- Concrete witness input `scale`. -/
def wS : ℕ → ℚ := fun j => (j : ℚ) + 2

/-- Concrete witness input `mean`. -/
def wMu : ℕ → ℚ := fun i => (i : ℚ) + 1

/-- Concrete witness input `inv_std_var`. -/
def wIvs : ℕ → ℚ := fun i => (i : ℚ) + 4

/-- C1 witness: the closed-form property at a concrete shape `[2, 3]` with
axis 1 and concrete tensors. -/
theorem c1_witness :
    ∃ out, contrib.Compute [2, 3] 1 wY wX wS wMu wIvs = Except.ok out ∧
      ∀ i j, i < outerSize [2, 3] 1 → j < featureSize [2, 3] 1 →
        out.X_grad i j = specDX (featureSize [2, 3] 1) wY wX wS wMu wIvs i j :=
  c1_dense_engine_computes_spec_closed_form [2, 3] 1 wY wX wS wMu wIvs
    (by decide) (by decide)

namespace cuda

/-- `const int part_size = 16;` of the CUDA kernel: the fixed partition count,
a literal constant independent of the input shapes. -/
def part_size : ℕ := 16

/-- Modelled from the spec: Phase 1 of `HostLayerNormGradient`
(orttraining/training_ops/cuda/nn/layer_norm_impl, not part of this excerpt).
Per spec section 4.2, each of the `P` partitions owns a disjoint slice of the
outer rows and accumulates, per feature index, the partial sum of the
`A`-equivalent terms `dY ⊙ (X − μ)·σ⁻¹` over its rows, stored in the
`part_grad_gamma` scratch buffer of `P × feature` elements. -/
def part_grad_gamma (P N : ℕ) (Ygrad X : ℕ → ℕ → ℚ) (mean ivs : ℕ → ℚ)
    (p j : ℕ) : ℚ :=
  ∑ i in (Finset.range N).filter (fun i => i % P = p),
    Ygrad i j * ((X i j - mean i) * ivs i)

/-- Modelled from the spec: Phase 1 of `HostLayerNormGradient`, the partial
sums of the `dY`-equivalent terms over each partition's rows, stored in the
`part_grad_beta` scratch buffer of `P × feature` elements. -/
def part_grad_beta (P N : ℕ) (Ygrad : ℕ → ℕ → ℚ) (p j : ℕ) : ℚ :=
  ∑ i in (Finset.range N).filter (fun i => i % P = p), Ygrad i j

/-- Modelled from the spec: Phase 2 of `HostLayerNormGradient` sums the `P`
partial values per feature index to obtain the final `dγ`. -/
def scale_grad (P N : ℕ) (Ygrad X : ℕ → ℕ → ℚ) (mean ivs : ℕ → ℚ)
    (j : ℕ) : ℚ :=
  ∑ p in Finset.range P, part_grad_gamma P N Ygrad X mean ivs p j

/-- Modelled from the spec: Phase 2 of `HostLayerNormGradient` sums the `P`
partial values per feature index to obtain the final `dβ`. -/
def bias_grad (P N : ℕ) (Ygrad : ℕ → ℕ → ℚ) (j : ℕ) : ℚ :=
  ∑ p in Finset.range P, part_grad_beta P N Ygrad p j

/-- Modelled from the spec: the `dX` part of `HostLayerNormGradient` computes
every `(outer, feature)` cell "exactly as in steps 1–6 of section 4.1"
(spec section 4.2 Phase 2), with no cross-row reduction. -/
def X_grad (M : ℕ) (Ygrad X : ℕ → ℕ → ℚ) (scale mean ivs : ℕ → ℚ)
    (i j : ℕ) : ℚ :=
  specDX M Ygrad X scale mean ivs i j

/-- The outputs of `LayerNormGrad<T, U>::ComputeInternal`, together with the
element counts of the `GetScratchBuffer<CudaU>` allocations it performed
(in the statistics precision `U`). -/
structure Output where
  X_grad : ℕ → ℕ → ℚ
  scale_grad : ℕ → ℚ
  bias_grad : ℕ → ℚ
  scratchAllocs : List ℕ

/-- `LayerNormGrad<T, U>::ComputeInternal` of the CUDA kernel: resolve the
axis, form `n1 = SizeToDimension(axis)` and `n2 = SizeFromDimension(axis)`,
enforce `n2 != 1` (before any output tensor is obtained or any scratch buffer
allocated), allocate `part_grad_gamma` and `part_grad_beta` of
`part_size * n2` elements each, and launch `HostLayerNormGradient`. -/
def ComputeInternal (dims : List ℕ) (axisAttr : ℤ) (Ygrad X : ℕ → ℕ → ℚ)
    (scale mean ivs : ℕ → ℚ) : Except EnforceError Output :=
  let n1 := outerSize dims axisAttr
  let n2 := featureSize dims axisAttr
  if n2 = 1 then Except.error EnforceError.featureSizeIsOne
  else Except.ok
    { X_grad := X_grad n2 Ygrad X scale mean ivs
      scale_grad := scale_grad part_size n1 Ygrad X mean ivs
      bias_grad := bias_grad part_size n1 Ygrad
      scratchAllocs := [part_size * n2, part_size * n2] }

end cuda

/-- Helper: for any input passing the `n2 != 1` guard, `ComputeInternal`
succeeds and returns the partitioned-reduction results together with the two
scratch allocations. -/
theorem cuda.ComputeInternal_ok (dims : List ℕ) (axisAttr : ℤ)
    (Ygrad X : ℕ → ℕ → ℚ) (scale mean ivs : ℕ → ℚ)
    (hM1 : featureSize dims axisAttr ≠ 1) :
    cuda.ComputeInternal dims axisAttr Ygrad X scale mean ivs =
      Except.ok
        { X_grad := cuda.X_grad (featureSize dims axisAttr) Ygrad X scale mean ivs
          scale_grad := cuda.scale_grad cuda.part_size (outerSize dims axisAttr) Ygrad X mean ivs
          bias_grad := cuda.bias_grad cuda.part_size (outerSize dims axisAttr) Ygrad
          scratchAllocs := [cuda.part_size * featureSize dims axisAttr,
                            cuda.part_size * featureSize dims axisAttr] } := by
  simp [cuda.ComputeInternal, hM1]

/-- C2: for every valid input the bias gradient equals the sum of `dY` over
the outer dimension, one scalar per feature index, and it is unchanged when
`X`, `γ`, `μ`, `σ⁻¹` are all replaced while `dY` is held fixed. -/
theorem c2_bias_grad_is_outer_sum_of_dY (dims : List ℕ) (axisAttr : ℤ)
    (Ygrad X : ℕ → ℕ → ℚ) (scale mean ivs : ℕ → ℚ)
    (Xv : ℕ → ℕ → ℚ) (scalev meanv ivsv : ℕ → ℚ)
    (hM1 : featureSize dims axisAttr ≠ 1) :
    ∃ out outv,
      contrib.Compute dims axisAttr Ygrad X scale mean ivs = Except.ok out ∧
      contrib.Compute dims axisAttr Ygrad Xv scalev meanv ivsv = Except.ok outv ∧
      (∀ j, out.bias_grad j =
        ∑ i in Finset.range (outerSize dims axisAttr), Ygrad i j) ∧
      ∀ j, outv.bias_grad j = out.bias_grad j :=
  ⟨_, _, contrib.Compute_ok dims axisAttr Ygrad X scale mean ivs hM1,
    contrib.Compute_ok dims axisAttr Ygrad Xv scalev meanv ivsv hM1,
    fun _ => rfl, fun _ => rfl⟩

/-- C2 witness: the bias-gradient property at shape `[2, 3]`, axis 1, with the
second call varying all four of `X`, `γ`, `μ`, `σ⁻¹`. -/
theorem c2_witness :
    ∃ out outv,
      contrib.Compute [2, 3] 1 wY wX wS wMu wIvs = Except.ok out ∧
      contrib.Compute [2, 3] 1 wY wY wMu wS wIvs = Except.ok outv ∧
      (∀ j, out.bias_grad j = ∑ i in Finset.range (outerSize [2, 3] 1), wY i j) ∧
      ∀ j, outv.bias_grad j = out.bias_grad j :=
  c2_bias_grad_is_outer_sum_of_dY [2, 3] 1 wY wX wS wMu wIvs wY wMu wS wIvs
    (by decide)

/-- C3: for every valid input the scale gradient equals, per feature index,
the sum over the outer dimension of `dY ⊙ (X − μ)·σ⁻¹`. -/
theorem c3_scale_grad_is_outer_sum_of_dY_times_normalized (dims : List ℕ)
    (axisAttr : ℤ) (Ygrad X : ℕ → ℕ → ℚ) (scale mean ivs : ℕ → ℚ)
    (hM1 : featureSize dims axisAttr ≠ 1) :
    ∃ out,
      contrib.Compute dims axisAttr Ygrad X scale mean ivs = Except.ok out ∧
      ∀ j, out.scale_grad j =
        ∑ i in Finset.range (outerSize dims axisAttr),
          Ygrad i j * ((X i j - mean i) * ivs i) :=
  ⟨_, contrib.Compute_ok dims axisAttr Ygrad X scale mean ivs hM1,
    fun _ => rfl⟩

/-- C3 witness: the scale-gradient property at shape `[2, 3]`, axis 1. -/
theorem c3_witness :
    ∃ out,
      contrib.Compute [2, 3] 1 wY wX wS wMu wIvs = Except.ok out ∧
      ∀ j, out.scale_grad j =
        ∑ i in Finset.range (outerSize [2, 3] 1),
          wY i j * ((wX i j - wMu i) * wIvs i) :=
  c3_scale_grad_is_outer_sum_of_dY_times_normalized [2, 3] 1 wY wX wS wMu wIvs
    (by decide)

/-- C4: for every input of feature size exactly 1, both engines fail
synchronously with the explicit enforce failure, producing no output. -/
theorem c4_feature_size_one_rejected (dims : List ℕ) (axisAttr : ℤ)
    (Ygrad X : ℕ → ℕ → ℚ) (scale mean ivs : ℕ → ℚ)
    (h1 : featureSize dims axisAttr = 1) :
    contrib.Compute dims axisAttr Ygrad X scale mean ivs =
      Except.error EnforceError.featureSizeIsOne ∧
    cuda.ComputeInternal dims axisAttr Ygrad X scale mean ivs =
      Except.error EnforceError.featureSizeIsOne := by
  constructor
  · simp [contrib.Compute, h1]
  · simp [cuda.ComputeInternal, h1]

/-- C4 witness: shape `[2, 1]` with axis 1 has feature size 1 and both engines
reject it. -/
theorem c4_witness :
    contrib.Compute [2, 1] 1 wY wX wS wMu wIvs =
      Except.error EnforceError.featureSizeIsOne ∧
    cuda.ComputeInternal [2, 1] 1 wY wX wS wMu wIvs =
      Except.error EnforceError.featureSizeIsOne :=
  c4_feature_size_one_rejected [2, 1] 1 wY wX wS wMu wIvs (by decide)

/-- Helper: summing a quantity partition-by-partition over the `P` residue
classes of the outer index recovers the total sum over all `N` outer rows. -/
theorem sum_over_partitions {P N : ℕ} (hP : 0 < P) (f : ℕ → ℚ) :
    ∑ p in Finset.range P,
        ∑ i in (Finset.range N).filter (fun i => i % P = p), f i =
      ∑ i in Finset.range N, f i :=
  Finset.sum_fiberwise_of_maps_to
    (fun i _ => Finset.mem_range.mpr (Nat.mod_lt i hP)) f

/-- Helper: one cell of the CPU input gradient equals the spec closed form
(the two expressions differ only in association of products). -/
theorem contrib.X_grad_eq_specDX (M : ℕ) (Ygrad X : ℕ → ℕ → ℚ)
    (scale mean ivs : ℕ → ℚ) (i j : ℕ) :
    contrib.X_grad M Ygrad X scale mean ivs i j =
      specDX M Ygrad X scale mean ivs i j := rfl

/-- C6: for every valid input, the Dense-Array (CPU) engine and the
Partitioned-Reduction (CUDA) engine both succeed and produce exactly equal
`dX`, `dγ` and `dβ` (in the exact-arithmetic model the floating-point
tolerance is met with difference zero). -/
theorem c6_cross_engine_equivalence (dims : List ℕ) (axisAttr : ℤ)
    (Ygrad X : ℕ → ℕ → ℚ) (scale mean ivs : ℕ → ℚ)
    (hM1 : featureSize dims axisAttr ≠ 1) :
    ∃ outCpu outCuda,
      contrib.Compute dims axisAttr Ygrad X scale mean ivs = Except.ok outCpu ∧
      cuda.ComputeInternal dims axisAttr Ygrad X scale mean ivs = Except.ok outCuda ∧
      (∀ i j, outCuda.X_grad i j = outCpu.X_grad i j) ∧
      (∀ j, outCuda.scale_grad j = outCpu.scale_grad j) ∧
      (∀ j, outCuda.bias_grad j = outCpu.bias_grad j) := by
  refine ⟨_, _, contrib.Compute_ok dims axisAttr Ygrad X scale mean ivs hM1,
    cuda.ComputeInternal_ok dims axisAttr Ygrad X scale mean ivs hM1,
    fun i j => rfl, fun j => ?_, fun j => ?_⟩
  · show cuda.scale_grad cuda.part_size (outerSize dims axisAttr) Ygrad X mean ivs j =
      contrib.scale_grad (outerSize dims axisAttr) Ygrad X mean ivs j
    unfold cuda.scale_grad cuda.part_grad_gamma contrib.scale_grad contrib.A
      contrib.X_mean_difference_over_std_var
    exact sum_over_partitions (by norm_num [cuda.part_size]) _
  · show cuda.bias_grad cuda.part_size (outerSize dims axisAttr) Ygrad j =
      contrib.bias_grad (outerSize dims axisAttr) Ygrad j
    unfold cuda.bias_grad cuda.part_grad_beta contrib.bias_grad
    exact sum_over_partitions (by norm_num [cuda.part_size]) _

/-- C6 witness: cross-engine equivalence at shape `[2, 3]`, axis 1, on
concrete tensors. -/
theorem c6_witness :
    ∃ outCpu outCuda,
      contrib.Compute [2, 3] 1 wY wX wS wMu wIvs = Except.ok outCpu ∧
      cuda.ComputeInternal [2, 3] 1 wY wX wS wMu wIvs = Except.ok outCuda ∧
      (∀ i j, outCuda.X_grad i j = outCpu.X_grad i j) ∧
      (∀ j, outCuda.scale_grad j = outCpu.scale_grad j) ∧
      (∀ j, outCuda.bias_grad j = outCpu.bias_grad j) :=
  c6_cross_engine_equivalence [2, 3] 1 wY wX wS wMu wIvs (by decide)

/-- Helper: array `B` is homogeneous in `Y_grad`. -/
theorem contrib.B_smul (k : ℚ) (Ygrad : ℕ → ℕ → ℚ) (scale ivs : ℕ → ℚ)
    (i j : ℕ) :
    contrib.B (fun a b => k * Ygrad a b) scale ivs i j =
      k * contrib.B Ygrad scale ivs i j := by
  show k * Ygrad i j * scale j * ivs i = k * (Ygrad i j * scale j * ivs i)
  ring

/-- Helper: `mean_B` is homogeneous in `Y_grad`. -/
theorem contrib.mean_B_smul (M : ℕ) (k : ℚ) (Ygrad : ℕ → ℕ → ℚ)
    (scale ivs : ℕ → ℚ) (i : ℕ) :
    contrib.mean_B M (fun a b => k * Ygrad a b) scale ivs i =
      k * contrib.mean_B M Ygrad scale ivs i := by
  show (∑ j in Finset.range M, k * Ygrad i j * scale j * ivs i) / (M : ℚ) =
      k * ((∑ j in Finset.range M, Ygrad i j * scale j * ivs i) / (M : ℚ))
  have h : ∀ j ∈ Finset.range M,
      k * Ygrad i j * scale j * ivs i = k * (Ygrad i j * scale j * ivs i) :=
    fun j _ => by ring
  rw [Finset.sum_congr rfl h, ← Finset.mul_sum, mul_div_assoc]

/-- Helper: `mean_C` is homogeneous in `Y_grad`. -/
theorem contrib.mean_C_smul (M : ℕ) (k : ℚ) (Ygrad X : ℕ → ℕ → ℚ)
    (scale mean ivs : ℕ → ℚ) (i : ℕ) :
    contrib.mean_C M (fun a b => k * Ygrad a b) X scale mean ivs i =
      k * contrib.mean_C M Ygrad X scale mean ivs i := by
  show (∑ j in Finset.range M,
        k * Ygrad i j * scale j * ivs i * ((X i j - mean i) * ivs i)) / (M : ℚ) =
      k * ((∑ j in Finset.range M,
        Ygrad i j * scale j * ivs i * ((X i j - mean i) * ivs i)) / (M : ℚ))
  have h : ∀ j ∈ Finset.range M,
      k * Ygrad i j * scale j * ivs i * ((X i j - mean i) * ivs i) =
        k * (Ygrad i j * scale j * ivs i * ((X i j - mean i) * ivs i)) :=
    fun j _ => by ring
  rw [Finset.sum_congr rfl h, ← Finset.mul_sum, mul_div_assoc]

/-- Helper: every cell of the input gradient is homogeneous in `Y_grad`. -/
theorem contrib.X_grad_smul (M : ℕ) (k : ℚ) (Ygrad X : ℕ → ℕ → ℚ)
    (scale mean ivs : ℕ → ℚ) (i j : ℕ) :
    contrib.X_grad M (fun a b => k * Ygrad a b) X scale mean ivs i j =
      k * contrib.X_grad M Ygrad X scale mean ivs i j := by
  unfold contrib.X_grad
  rw [contrib.B_smul, contrib.mean_B_smul, contrib.mean_C_smul]
  ring

/-- Helper: the scale gradient is homogeneous in `Y_grad`. -/
theorem contrib.scale_grad_smul (N : ℕ) (k : ℚ) (Ygrad X : ℕ → ℕ → ℚ)
    (mean ivs : ℕ → ℚ) (j : ℕ) :
    contrib.scale_grad N (fun a b => k * Ygrad a b) X mean ivs j =
      k * contrib.scale_grad N Ygrad X mean ivs j := by
  show (∑ i in Finset.range N, k * Ygrad i j * ((X i j - mean i) * ivs i)) =
      k * ∑ i in Finset.range N, Ygrad i j * ((X i j - mean i) * ivs i)
  rw [Finset.mul_sum]
  exact Finset.sum_congr rfl fun i _ => by ring

/-- Helper: the bias gradient is homogeneous in `Y_grad`. -/
theorem contrib.bias_grad_smul (N : ℕ) (k : ℚ) (Ygrad : ℕ → ℕ → ℚ) (j : ℕ) :
    contrib.bias_grad N (fun a b => k * Ygrad a b) j =
      k * contrib.bias_grad N Ygrad j := by
  show (∑ i in Finset.range N, k * Ygrad i j) =
      k * ∑ i in Finset.range N, Ygrad i j
  rw [Finset.mul_sum]

/-- C7: for every valid input and every scalar `k`, replacing `dY` by `k · dY`
while holding `X`, `γ`, `μ`, `σ⁻¹` fixed scales all three outputs of the
Dense-Array engine by `k`. -/
theorem c7_linear_in_upstream_gradient (dims : List ℕ) (axisAttr : ℤ)
    (k : ℚ) (Ygrad X : ℕ → ℕ → ℚ) (scale mean ivs : ℕ → ℚ)
    (hM1 : featureSize dims axisAttr ≠ 1) :
    ∃ out outk,
      contrib.Compute dims axisAttr Ygrad X scale mean ivs = Except.ok out ∧
      contrib.Compute dims axisAttr (fun a b => k * Ygrad a b) X scale mean ivs =
        Except.ok outk ∧
      (∀ i j, outk.X_grad i j = k * out.X_grad i j) ∧
      (∀ j, outk.scale_grad j = k * out.scale_grad j) ∧
      (∀ j, outk.bias_grad j = k * out.bias_grad j) :=
  ⟨_, _, contrib.Compute_ok dims axisAttr Ygrad X scale mean ivs hM1,
    contrib.Compute_ok dims axisAttr (fun a b => k * Ygrad a b) X scale mean ivs hM1,
    fun i j => contrib.X_grad_smul (featureSize dims axisAttr) k Ygrad X scale mean ivs i j,
    fun j => contrib.scale_grad_smul (outerSize dims axisAttr) k Ygrad X mean ivs j,
    fun j => contrib.bias_grad_smul (outerSize dims axisAttr) k Ygrad j⟩

/-- C7 witness: scaling `dY` by 5 at shape `[2, 3]`, axis 1, scales the three
outputs by 5. -/
theorem c7_witness :
    ∃ out outk,
      contrib.Compute [2, 3] 1 wY wX wS wMu wIvs = Except.ok out ∧
      contrib.Compute [2, 3] 1 (fun a b => 5 * wY a b) wX wS wMu wIvs =
        Except.ok outk ∧
      (∀ i j, outk.X_grad i j = 5 * out.X_grad i j) ∧
      (∀ j, outk.scale_grad j = 5 * out.scale_grad j) ∧
      (∀ j, outk.bias_grad j = 5 * out.bias_grad j) :=
  c7_linear_in_upstream_gradient [2, 3] 1 5 wY wX wS wMu wIvs (by decide)

/-- C8: for every valid call, the Partitioned-Reduction engine allocates
exactly two partial-sum scratch buffers, each of `part_size * n2` elements
(`part_size = 16`, a constant independent of the shapes; `n2` the feature
size), and its `dγ`/`dβ` outputs are the sums of the `part_size` per-partition
partial accumulators. -/
theorem c8_two_scratch_buffers_of_fixed_partition_count (dims : List ℕ)
    (axisAttr : ℤ) (Ygrad X : ℕ → ℕ → ℚ) (scale mean ivs : ℕ → ℚ)
    (hM1 : featureSize dims axisAttr ≠ 1) :
    ∃ outCuda,
      cuda.ComputeInternal dims axisAttr Ygrad X scale mean ivs = Except.ok outCuda ∧
      outCuda.scratchAllocs =
        [cuda.part_size * featureSize dims axisAttr,
         cuda.part_size * featureSize dims axisAttr] ∧
      outCuda.scratchAllocs.length = 2 ∧
      cuda.part_size = 16 ∧
      (∀ j, outCuda.scale_grad j =
        ∑ p in Finset.range cuda.part_size,
          cuda.part_grad_gamma cuda.part_size (outerSize dims axisAttr) Ygrad X mean ivs p j) ∧
      (∀ j, outCuda.bias_grad j =
        ∑ p in Finset.range cuda.part_size,
          cuda.part_grad_beta cuda.part_size (outerSize dims axisAttr) Ygrad p j) :=
  ⟨_, cuda.ComputeInternal_ok dims axisAttr Ygrad X scale mean ivs hM1,
    rfl, rfl, rfl, fun _ => rfl, fun _ => rfl⟩

/-- C8 witness: at shape `[2, 3]` with axis 1 the two scratch buffers have
`16 * 3` elements each. -/
theorem c8_witness :
    ∃ outCuda,
      cuda.ComputeInternal [2, 3] 1 wY wX wS wMu wIvs = Except.ok outCuda ∧
      outCuda.scratchAllocs =
        [cuda.part_size * featureSize [2, 3] 1,
         cuda.part_size * featureSize [2, 3] 1] ∧
      outCuda.scratchAllocs.length = 2 ∧
      cuda.part_size = 16 ∧
      (∀ j, outCuda.scale_grad j =
        ∑ p in Finset.range cuda.part_size,
          cuda.part_grad_gamma cuda.part_size (outerSize [2, 3] 1) wY wX wMu wIvs p j) ∧
      (∀ j, outCuda.bias_grad j =
        ∑ p in Finset.range cuda.part_size,
          cuda.part_grad_beta cuda.part_size (outerSize [2, 3] 1) wY p j) :=
  c8_two_scratch_buffers_of_fixed_partition_count [2, 3] 1 wY wX wS wMu wIvs
    (by decide)

/-- C9: for rank `r` and axis attribute `a` in the valid range `[-r, r)`, a
negative `a` resolves to `a + r` (and a nonnegative `a` to itself), and the
outer and feature sizes used by both engines are the products of the
dimensions strictly before, respectively from, the resolved axis. -/
theorem c9_axis_resolution_and_sizes (dims : List ℕ) (axisAttr : ℤ)
    (hlo : -(dims.length : ℤ) ≤ axisAttr) (hhi : axisAttr < (dims.length : ℤ)) :
    (axisAttr < 0 → (resolvedAxis axisAttr dims : ℤ) = axisAttr + dims.length) ∧
    (0 ≤ axisAttr → (resolvedAxis axisAttr dims : ℤ) = axisAttr) ∧
    outerSize dims axisAttr = (dims.take (resolvedAxis axisAttr dims)).prod ∧
    featureSize dims axisAttr = (dims.drop (resolvedAxis axisAttr dims)).prod := by
  refine ⟨fun hneg => ?_, fun hpos => ?_, ?_, ?_⟩
  · unfold resolvedAxis handleNegativeAxis
    rw [if_pos hneg]
    omega
  · unfold resolvedAxis handleNegativeAxis
    rw [if_neg (by omega)]
    omega
  · exact List.prod_eq_foldl.symm
  · exact List.prod_eq_foldl.symm

/-- C9 witness: rank 3 shape `[2, 3, 4]` with axis attribute -2 resolves to
axis 1, outer size 2 and feature size 12. -/
theorem c9_witness :
    ((-2 : ℤ) < 0 → (resolvedAxis (-2) [2, 3, 4] : ℤ) = -2 + ([2, 3, 4] : List ℕ).length) ∧
    ((0 : ℤ) ≤ -2 → (resolvedAxis (-2) [2, 3, 4] : ℤ) = -2) ∧
    outerSize [2, 3, 4] (-2) = (([2, 3, 4] : List ℕ).take (resolvedAxis (-2) [2, 3, 4])).prod ∧
    featureSize [2, 3, 4] (-2) = (([2, 3, 4] : List ℕ).drop (resolvedAxis (-2) [2, 3, 4])).prod :=
  c9_axis_resolution_and_sizes [2, 3, 4] (-2) (by decide) (by decide)

/-- C10: the degenerate-size guard in both engines is `feature size != 1`
only: an input with feature size 0 passes the guard, and both engines proceed
to produce a numeric result instead of failing. -/
theorem c10_feature_size_zero_passes_guard (dims : List ℕ) (axisAttr : ℤ)
    (Ygrad X : ℕ → ℕ → ℚ) (scale mean ivs : ℕ → ℚ)
    (h0 : featureSize dims axisAttr = 0) :
    (∃ outCpu, contrib.Compute dims axisAttr Ygrad X scale mean ivs =
      Except.ok outCpu) ∧
    ∃ outCuda, cuda.ComputeInternal dims axisAttr Ygrad X scale mean ivs =
      Except.ok outCuda := by
  have hM1 : featureSize dims axisAttr ≠ 1 := by omega
  exact ⟨⟨_, contrib.Compute_ok dims axisAttr Ygrad X scale mean ivs hM1⟩,
    ⟨_, cuda.ComputeInternal_ok dims axisAttr Ygrad X scale mean ivs hM1⟩⟩

/-- C10 witness: shape `[2, 0]` with axis 1 has feature size 0, yet both
engines return a result instead of the enforce failure. -/
theorem c10_witness :
    (∃ outCpu, contrib.Compute [2, 0] 1 wY wX wS wMu wIvs =
      Except.ok outCpu) ∧
    ∃ outCuda, cuda.ComputeInternal [2, 0] 1 wY wX wS wMu wIvs =
      Except.ok outCuda :=
  c10_feature_size_zero_passes_guard [2, 0] 1 wY wX wS wMu wIvs (by decide)

/-- The element datatypes appearing in the kernel registrations:
`MLFloat16`, `float`, `double`. -/
inductive DType
  | f16
  | f32
  | f64
deriving DecidableEq

/-- Bit width of each datatype. -/
def DType.width : DType → ℕ
  | .f16 => 16
  | .f32 => 32
  | .f64 => 64

/-- One registered kernel instantiation: the data datatype bound to the type
constraint `T`, and the datatype the kernel uses for the cached statistics
tensors (mean and inverse std-dev). -/
structure KernelRegistration where
  dataT : DType
  statsT : DType
deriving DecidableEq

/-- `REGISTER_KERNEL_TYPED(float)` and `REGISTER_KERNEL_TYPED(double)` for the
CPU kernel.  Its Compute body reads the mean and inv_std_var tensors with
`Data<float>()` regardless of `T`, so the statistics datatype of every CPU
registration is `float`. -/
def cpuRegistrations : List KernelRegistration :=
  [⟨DType.f32, DType.f32⟩, ⟨DType.f64, DType.f32⟩]

/-- `REGISTER_GRADIENT_KERNEL_TYPED(float, float)`, `(double, float)` and
`(MLFloat16, float)` for the CUDA kernel: the `U` type constraint (statistics)
is `float` in all three registrations. -/
def cudaRegistrations : List KernelRegistration :=
  [⟨DType.f32, DType.f32⟩, ⟨DType.f64, DType.f32⟩, ⟨DType.f16, DType.f32⟩]

/-- C5 counterexample: the `double` registration of the CPU engine (and of the
CUDA engine) has `float` statistics, which are strictly narrower than the
data type — refuting the claim that statistics are always at least as wide as
the data. -/
theorem c5_counterexample :
    (⟨DType.f64, DType.f32⟩ : KernelRegistration) ∈ cpuRegistrations ∧
    (⟨DType.f64, DType.f32⟩ : KernelRegistration) ∈ cudaRegistrations ∧
    ¬ DType.width DType.f64 ≤ DType.width DType.f32 := by decide

/-- C5 (amended): in every registered kernel instantiation of either engine
the statistics tensors have type `float`; this is at least as wide as the
data type for every registration except the `double` ones, where the
statistics are strictly narrower than the data. -/
theorem c5_statistics_always_float (r : KernelRegistration)
    (hr : r ∈ cpuRegistrations ++ cudaRegistrations) :
    r.statsT = DType.f32 ∧
      (r.dataT ≠ DType.f64 → DType.width r.dataT ≤ DType.width r.statsT) ∧
      (r.dataT = DType.f64 → DType.width r.statsT < DType.width r.dataT) := by
  revert hr
  revert r
  decide

/-- C5 witness: the amended statement at the concrete `double` CPU
registration. -/
theorem c5_witness :
    (⟨DType.f64, DType.f32⟩ : KernelRegistration).statsT = DType.f32 ∧
      ((⟨DType.f64, DType.f32⟩ : KernelRegistration).dataT ≠ DType.f64 →
        DType.width (⟨DType.f64, DType.f32⟩ : KernelRegistration).dataT ≤
          DType.width (⟨DType.f64, DType.f32⟩ : KernelRegistration).statsT) ∧
      ((⟨DType.f64, DType.f32⟩ : KernelRegistration).dataT = DType.f64 →
        DType.width (⟨DType.f64, DType.f32⟩ : KernelRegistration).statsT <
          DType.width (⟨DType.f64, DType.f32⟩ : KernelRegistration).dataT) :=
  c5_statistics_always_float ⟨DType.f64, DType.f32⟩ (by decide)
